import Mathlib

/-!
Shallow embedding of the frame-lifecycle orchestration of the ray-tracing
viewer (src/src/simulator.cpp, src/src/simulator.hpp, src/src/gui.cpp).

Conventions of the embedding:
* The pieces of `Simulator` state that the verified claims touch are gathered
  in one record `SimState`; each field carries the name of the C++ member it
  embeds.  The function-local `static` variables of `Simulator::updateFrame`
  (`refCamMatrix`, `fov`) are state as well, so they live in the record.
* The camera matrix and the field of view are external values that the code
  only compares for exact equality (`memcmp` / `!=`); they are modelled as
  abstract comparable values of type `Int`.
* C++ `float` quantities that the claims mention (`fireflyClampThreshold`,
  the skydome integral) are modelled as exact rationals; the only arithmetic
  the code performs on them here is multiplication by 4, which is exact.
* Calls into external collaborators (Vulkan, the renderers, the scene and
  skydome loaders, ImGui) are recorded as events in a trace; a function of
  the simulator is embedded as `SimState → SimState × List Event` (or just
  `SimState → SimState` when its trace is irrelevant to every claim).
* The detached loading thread of `Simulator::loadAssets` is modelled as
  running to completion: the embedding is sequential (set busy, wait idle,
  thread body, reset, clear busy), which is the order the source executes
  its statements in.
-/

namespace RtSim

/-- `Simulator::RndMethod` (simulator.hpp): the renderer kinds. -/
inductive RndMethod
  | eRtxPipeline
  | eRayQuery
  | eNone
  deriving DecidableEq

/-- Calls into external collaborators, recorded as a trace. -/
inductive Event
  | deviceWaitIdle                    -- vkDeviceWaitIdle
  | destroyRenderer (k : RndMethod)   -- m_pRender[k]->destroy()
  | setActiveMethod (k : RndMethod)   -- assignment m_rndMethod = method
  | createRendererFor (k : RndMethod) -- m_pRender[k]->create(...)
  | rendererRun (k : RndMethod)       -- m_pRender[k]->run(...)
  | setPushConstants                  -- m_pRender[...]->setPushContants(m_rtxState)
  | updateCameraBuffer                -- m_scene.updateCamera(cmdBuf, aspectRatio)
  | updateSunSkyBuffer                -- vkCmdUpdateBuffer(... m_sunAndSkyBuffer ...)
  | showBusyWindow                    -- m_gui->showBusyWindow()
  | sceneLoad (f : String)            -- m_scene.load(f) + accel-structure rebuild
  | hdrLoad (f : String)              -- m_skydome.loadEnvironment(f)
  | updateHdrDescriptorsEv            -- updateHdrDescriptors()
  | resetFrameEv                      -- resetFrame()
  | setBusy (b : Bool)                -- assignment m_busy = b
  | loadAssetsCall (f : String)       -- loadAssets(f)
  | genMipmap                         -- m_offscreen.genMipmap(cmdBuf)
  deriving DecidableEq

/-- The `Simulator` state touched by the claims (simulator.hpp members, plus
the two `static` locals of `updateFrame`). -/
structure SimState where
  /-- `m_rtxState.frame` -/
  frame : Int
  /-- `m_rtxState.fireflyClampThreshold` (float, modelled exactly) -/
  fireflyClampThreshold : ℚ
  /-- `m_rtxState.size` -/
  rtxSize : Nat × Nat
  /-- `m_maxFrames` -/
  maxFrames : Int
  /-- `m_busy` -/
  busy : Bool
  /-- `m_busyReasonText` -/
  busyReasonText : String
  /-- `m_rndMethod` -/
  rndMethod : RndMethod
  /-- the `static nvmath::mat4f refCamMatrix` of `updateFrame` (abstract) -/
  refCamMatrix : Int
  /-- the `static float fov` of `updateFrame` (abstract) -/
  refFov : Int
  /-- which scene file `m_scene` currently holds -/
  sceneLoaded : Option String
  /-- which HDR file `m_skydome` currently holds -/
  hdrLoaded : Option String
  /-- `m_skydome.getIntegral()` of the loaded environment -/
  envIntegral : ℚ
  /-- `m_renderRegion.extent` as (width, height) -/
  renderRegionExtent : Nat × Nat
  /-- `m_descaling` -/
  descaling : Bool
  /-- `m_descalingLevel` -/
  descalingLevel : Nat
  /-- `m_offscreen.m_tonemapper.autoExposure` viewed as a flag -/
  autoExposure : Bool
  deriving DecidableEq

/-- The member initializers of simulator.hpp (`m_rtxState{0, ...}`,
`m_maxFrames{100000}`, `m_busy{false}`, `m_rndMethod{eNone}`,
`m_descaling{false}`, `m_descalingLevel{1}`); fields of external
collaborators start empty/zero. -/
def initialSimState : SimState where
  frame := 0
  fireflyClampThreshold := 1
  rtxSize := (0, 0)
  maxFrames := 100000
  busy := false
  busyReasonText := ""
  rndMethod := RndMethod.eNone
  refCamMatrix := 0
  refFov := 0
  sceneLoaded := none
  hdrLoaded := none
  envIntegral := 0
  renderRegionExtent := (0, 0)
  descaling := false
  descalingLevel := 1
  autoExposure := false

/-- `Simulator::resetFrame` (simulator.cpp:185-187): `m_rtxState.frame = -1`. -/
def resetFrame (s : SimState) : SimState :=
  { s with frame := -1 }

/-- `Simulator::updateFrame` (simulator.cpp:166-180).  `m` and `f` are the
current camera matrix and field of view (`CameraManip.getMatrix()/getFov()`);
the `memcmp`/`!=` comparisons against the cached statics are exact equality
on the abstract values. -/
def updateFrame (s : SimState) (m f : Int) : SimState :=
  let s1 := if m ≠ s.refCamMatrix ∨ f ≠ s.refFov then
              { resetFrame s with refCamMatrix := m, refFov := f }
            else s
  if s1.frame < s1.maxFrames then { s1 with frame := s1.frame + 1 } else s1

/-- One orchestration step in which the camera matrix and FOV are unchanged
(equal to the cached statics), i.e. no reset-triggering event. -/
def stepNoReset (s : SimState) : SimState :=
  updateFrame s s.refCamMatrix s.refFov

/-- `Simulator::updateUniformBuffer` (simulator.cpp:152-161): early return
when `m_busy`, otherwise camera update and sun&sky buffer update.  The
simulator state itself is unchanged either way; only the trace matters. -/
def updateUniformBuffer (s : SimState) : List Event :=
  if s.busy then []
  else [Event.updateCameraBuffer, Event.updateSunSkyBuffer]

/-- `Simulator::renderScene` (simulator.cpp:426-493): busy shows the busy
window and returns; a finished accumulation (`frame >= m_maxFrames`) returns;
otherwise the de-scaled render size is computed, push constants are set and
the active renderer is run (plus mipmap generation under auto exposure). -/
def renderScene (s : SimState) : SimState × List Event :=
  if s.busy then (s, [Event.showBusyWindow])
  else if s.maxFrames ≤ s.frame then (s, [])
  else
    let renderSize :=
      if s.descaling then
        (s.renderRegionExtent.1 / s.descalingLevel, s.renderRegionExtent.2 / s.descalingLevel)
      else s.renderRegionExtent
    ({ s with rtxSize := renderSize },
     [Event.setPushConstants, Event.rendererRun s.rndMethod] ++
       (if s.autoExposure then [Event.genMipmap] else []))

/-- `Simulator::createRender` (simulator.cpp:298-312): no-op if `method` is
already active; otherwise, when a renderer is active (`m_rndMethod != eNone`),
wait for device idle and destroy it, then mark `method` active and create it. -/
def createRender (s : SimState) (method : RndMethod) : SimState × List Event :=
  if method = s.rndMethod then (s, [])
  else
    let destroyOld : List Event :=
      if s.rndMethod ≠ RndMethod.eNone then
        [Event.deviceWaitIdle, Event.destroyRenderer s.rndMethod]
      else []
    ({ s with rndMethod := method },
     destroyOld ++ [Event.setActiveMethod method, Event.createRendererFor method])

/-- `Simulator::loadScene` (simulator.cpp:81-88): scene load, acceleration
structure rebuild, then `resetFrame()`. -/
def loadScene (s : SimState) (f : String) : SimState × List Event :=
  (resetFrame { s with sceneLoaded := some f },
   [Event.sceneLoad f, Event.resetFrameEv])

/-- `Simulator::loadEnvironmentHdr` (simulator.cpp:93-100): loads the
environment, then `m_rtxState.fireflyClampThreshold = m_skydome.getIntegral() * 4.f`.
`integral` is the importance-sampling integral the loaded environment yields. -/
def loadEnvironmentHdr (s : SimState) (f : String) (integral : ℚ) : SimState × List Event :=
  let s1 := { s with hdrLoaded := some f, envIntegral := integral }
  ({ s1 with fireflyClampThreshold := s1.envIntegral * 4 },
   [Event.hdrLoad f])

/-- Helper for `extensionOf`: on the reversed character list, collect the
characters before the first '.', or `none` when there is no '.'. -/
def charsBeforeDot : List Char → Option (List Char)
  | [] => none
  | c :: cs => if c = '.' then some [] else (charsBeforeDot cs).map fun l => c :: l

/-- Model of `std::filesystem::path(sfile).extension().string()`
(simulator.cpp:119): the suffix of the filename from its last '.' (dot
included), `""` when the name has no dot.  (The std::filesystem special case
for a filename that is nothing but a leading-dot name is not modelled; no
claim exercises it.) -/
def extensionOf (f : String) : String :=
  match charsBeforeDot f.data.reverse with
  | none => ""
  | some l => String.mk ('.' :: l.reverse)

/-- `Simulator::loadAssets` (simulator.cpp:107-147), with the detached thread
body run to completion in source order: set `m_busy = true`, device-idle
wait, dispatch on the file extension (`.gltf`/`.glb` → scene path with full
renderer destroy/re-create; `.hdr` → HDR path with descriptor update), then
unconditionally `resetFrame()` and `m_busy = false`.  `integral` is
the importance-sampling integral an HDR load would yield. -/
def loadAssets (s : SimState) (f : String) (integral : ℚ) : SimState × List Event :=
  let s0 := { s with busy := true }
  let ext := extensionOf f
  let p1 :=
    if ext = ".gltf" ∨ ext = ".glb" then
      let pa := loadScene { s0 with busyReasonText := "Loading scene " } f
      (pa.1,
       pa.2 ++ [Event.destroyRenderer RndMethod.eRtxPipeline,
                Event.destroyRenderer RndMethod.eRayQuery,
                Event.createRendererFor pa.1.rndMethod])
    else (s0, ([] : List Event))
  let p2 :=
    if ext = ".hdr" then
      let pb := loadEnvironmentHdr { p1.1 with busyReasonText := "Loading HDR " } f integral
      (pb.1, pb.2 ++ [Event.updateHdrDescriptorsEv])
    else (p1.1, ([] : List Event))
  ({ p2.1 with frame := -1, busy := false },
   Event.setBusy true :: Event.deviceWaitIdle ::
     (p1.2 ++ p2.2 ++ [Event.resetFrameEv, Event.setBusy false]))

/-- `Simulator::onFileDrop` (simulator.cpp:572-577): rejected while busy,
otherwise forwards to `loadAssets`. -/
def onFileDrop (s : SimState) (f : String) (integral : ℚ) : SimState × List Event :=
  if s.busy then (s, [])
  else
    ((loadAssets s f integral).1,
     Event.loadAssetsCall f :: (loadAssets s f integral).2)

/-- The File menu's Open items (gui.cpp:695-698): `sim_->loadAssets(...)`
with no busy guard. -/
def menuOpenAsset (s : SimState) (f : String) (integral : ℚ) : SimState × List Event :=
  ((loadAssets s f integral).1,
   Event.loadAssetsCall f :: (loadAssets s f integral).2)

/-- `SimGUI::guiCamera` (gui.cpp:249-256): returns whether any of its
controls changed; `changedHere` stands for that OR of widget results. -/
def guiCamera (changedHere : Bool) : Bool := changedHere

/-- `SimGUI::guiRayTracing` (gui.cpp:261-332): returns whether any of its
controls changed. -/
def guiRayTracing (changedHere : Bool) : Bool := changedHere

/-- `SimGUI::guiTonemapper` (gui.cpp:334-376): accumulates a local `changed`
over its widgets but ends with `return false;  // no need to restart the
renderer` (gui.cpp:375), discarding it. -/
def guiTonemapper (changedHere : Bool) : Bool :=
  let _changed := changedHere
  false

/-- `SimGUI::guiEnvironment` (gui.cpp:381-462): returns whether any of its
controls changed. -/
def guiEnvironment (changedHere : Bool) : Bool := changedHere

/-- The reset logic of the Settings pass of `SimGUI::render`
(gui.cpp:168-199): `changed |= guiCamera() |= guiRayTracing() |=
guiTonemapper() |= guiEnvironment()`, then a single
`if (changed) sim_->resetFrame();` after the sections.  Each `Bool` argument
is whether the user edited a control of that section this pass (false when
its header is collapsed). -/
def guiSettingsPass (s : SimState) (camC rtC tmC envC : Bool) : SimState × List Event :=
  let changed := guiCamera camC || guiRayTracing rtC || guiTonemapper tmC || guiEnvironment envC
  if changed then (resetFrame s, [Event.resetFrameEv]) else (s, [])

/-- Whether a trace contains a renderer `run` dispatch. -/
def hasRendererRun (t : List Event) : Bool :=
  t.any fun e => match e with
    | Event.rendererRun _ => true
    | _ => false

/-- Whether a trace contains a scene load (the `.gltf`/`.glb` path). -/
def hasSceneLoad (t : List Event) : Bool :=
  t.any fun e => match e with
    | Event.sceneLoad _ => true
    | _ => false

/-- Whether a trace contains an HDR environment load (the `.hdr` path). -/
def hasHdrLoad (t : List Event) : Bool :=
  t.any fun e => match e with
    | Event.hdrLoad _ => true
    | _ => false

/-- Whether a trace ends with a frame reset immediately followed by the
clearing of the busy flag. -/
def endsWithResetThenClear (t : List Event) : Bool :=
  match t.reverse with
  | Event.setBusy false :: Event.resetFrameEv :: _ => true
  | _ => false

/-! ## Concrete states used by witnesses and counterexamples -/

/-- A mid-accumulation state: 5 frames accumulated, budget of 10. -/
def exampleStart : SimState :=
  { initialSimState with frame := 5, maxFrames := 10 }

/-- The scenario start state: fresh reset, budget of 10. -/
def accumStart : SimState :=
  { initialSimState with frame := -1, maxFrames := 10 }

/-- A state with an asset-load session in flight. -/
def busyState : SimState :=
  { initialSimState with busy := true }

/-- A state part-way through accumulation with a small budget. -/
def smallBudgetState : SimState :=
  { initialSimState with frame := 3, maxFrames := 5 }

/-- A state whose active renderer is the RTX pipeline. -/
def activeRtxState : SimState :=
  { initialSimState with rndMethod := RndMethod.eRtxPipeline }

/-! ## Helper lemmas -/

/-- With the camera matrix and FOV equal to the cached statics, a step is just
the conditional advance. -/
theorem stepNoReset_eq (s : SimState) :
    stepNoReset s = if s.frame < s.maxFrames then { s with frame := s.frame + 1 } else s := by
  simp [stepNoReset, updateFrame]

/-- A trace of the shape `a :: b :: (l₁ ++ l₂ ++ [reset, busy-clear])` ends
with a frame reset immediately followed by clearing the busy flag. -/
theorem endsWithResetThenClear_shape (a b : Event) (l₁ l₂ : List Event) :
    endsWithResetThenClear
      (a :: b :: (l₁ ++ l₂ ++ [Event.resetFrameEv, Event.setBusy false])) = true := by
  simp [endsWithResetThenClear, List.reverse_append]

/-! ## C1: reset supersedes advance -/

/-- Claim C1 counterexample: in `updateFrame`, a camera-matrix change on a
state with `frame = 5`, `maxFrames = 10` does NOT leave `frame = -1` after the
step; the reset sets it to -1 but the advance then runs, leaving 0. -/
theorem c1Counterexample :
    (1 : Int) ≠ exampleStart.refCamMatrix ∧
    (updateFrame exampleStart 1 0).frame ≠ -1 ∧
    (updateFrame exampleStart 1 0).frame = 0 := by
  decide

/-- Claim C1 (amended): if a reset-triggering event (camera matrix or FOV
change) is detected in `updateFrame` and `m_maxFrames > -1`, the value of
`m_rtxState.frame` after the step is exactly 0: the reset inside the step sets
it to -1 and the advance then increments it, so that step's render is treated
as frame 0 and the previously accumulated value is discarded. -/
theorem updateFrame_reset_supersedes (s : SimState) (m f : Int)
    (hchange : m ≠ s.refCamMatrix ∨ f ≠ s.refFov) (hmax : (-1 : Int) < s.maxFrames) :
    (updateFrame s m f).frame = 0 := by
  simp only [updateFrame, resetFrame]
  rw [if_pos hchange]
  simp only []
  rw [if_pos (by simpa using hmax)]
  norm_num

/-- Witness for C1's amended theorem at a concrete input. -/
theorem updateFrame_reset_supersedes_witness :
    ((1 : Int) ≠ exampleStart.refCamMatrix ∨ (0 : Int) ≠ exampleStart.refFov) ∧
    (-1 : Int) < exampleStart.maxFrames ∧
    (updateFrame exampleStart 1 0).frame = 0 :=
  ⟨Or.inl (by decide), by decide,
   updateFrame_reset_supersedes exampleStart 1 0 (Or.inl (by decide)) (by decide)⟩

/-! ## C2: twelve steps from a fresh reset -/

/-- Claim C2 counterexample: from `frame = -1`, `maxFrames = 10`, twelve
orchestration steps with no reset-triggering event do NOT leave the frame
counter at 9. -/
theorem c2Counterexample : (stepNoReset^[12] accumStart).frame ≠ 9 := by
  decide

/-- Claim C2 (amended): from `frame = -1`, `maxFrames = 10`, twelve
orchestration steps with no reset-triggering event leave `m_rtxState.frame`
equal to 10, i.e. the counter is capped at `maxFrames` itself (the advance
runs while `frame < maxFrames`, so the last advance is from 9 to 10). -/
theorem twelveStepsCapAtMaxFrames :
    (stepNoReset^[12] accumStart).frame = 10 ∧ accumStart.maxFrames = 10 := by
  decide

/-! ## C3: busy exclusion -/

/-- Claim C3: in every frame with `m_busy = true`, `renderScene` returns
(after only showing the busy window) before any renderer `run` dispatch and
changes no state, and `updateUniformBuffer` performs no buffer update. -/
theorem busy_excludes_render_and_ubo (s : SimState) (h : s.busy = true) :
    hasRendererRun (renderScene s).2 = false ∧
    (renderScene s).1 = s ∧
    updateUniformBuffer s = [] := by
  refine ⟨?_, ?_, ?_⟩ <;> simp [renderScene, updateUniformBuffer, hasRendererRun, h]

/-- Witness for C3 at a concrete busy state. -/
theorem busy_excludes_render_and_ubo_witness :
    busyState.busy = true ∧
    (hasRendererRun (renderScene busyState).2 = false ∧
     (renderScene busyState).1 = busyState ∧
     updateUniformBuffer busyState = []) :=
  ⟨rfl, busy_excludes_render_and_ubo busyState rfl⟩

/-! ## C4: monotonic accumulation -/

/-- Claim C4: over any sequence of orchestration steps with no
reset-triggering event, starting from `frame ≤ maxFrames`, the frame counter
after `k` steps is `min (frame + k) maxFrames`: it strictly increases by
exactly 1 each step until it reaches `m_maxFrames` and thereafter stays
constant. -/
theorem noReset_frame_eq_min (s : SimState) (h : s.frame ≤ s.maxFrames) (k : Nat) :
    (stepNoReset^[k] s).frame = min (s.frame + (k : Int)) s.maxFrames := by
  induction k generalizing s with
  | zero =>
      simp only [Function.iterate_zero, id_eq, Nat.cast_zero, add_zero]
      omega
  | succ k ih =>
      rw [Function.iterate_succ_apply, stepNoReset_eq]
      by_cases hlt : s.frame < s.maxFrames
      · rw [if_pos hlt]
        rw [ih { s with frame := s.frame + 1 } (by show s.frame + 1 ≤ s.maxFrames; omega)]
        show min (s.frame + 1 + (k : Int)) s.maxFrames = _
        push_cast
        omega
      · rw [if_neg hlt]
        rw [ih s h]
        push_cast
        omega

/-- Witness for C4 at a concrete state and step count. -/
theorem noReset_frame_eq_min_witness :
    smallBudgetState.frame ≤ smallBudgetState.maxFrames ∧
    (stepNoReset^[4] smallBudgetState).frame =
      min (smallBudgetState.frame + ((4 : Nat) : Int)) smallBudgetState.maxFrames :=
  ⟨by decide, noReset_frame_eq_min smallBudgetState (by decide) 4⟩

/-! ## C5: hot-swap ordering -/

/-- Claim C5: `createRender(method)` is a no-op when `method` is already
active; otherwise, when a renderer is active, the call produces exactly the
ordered operations device-idle wait, destroy of the previously active
renderer, marking the new kind active, create of the new renderer — so the
idle wait always precedes the destroy. -/
theorem createRender_ordering (s : SimState) (method : RndMethod) :
    (method = s.rndMethod → createRender s method = (s, [])) ∧
    (method ≠ s.rndMethod → s.rndMethod ≠ RndMethod.eNone →
      createRender s method =
        ({ s with rndMethod := method },
         [Event.deviceWaitIdle, Event.destroyRenderer s.rndMethod,
          Event.setActiveMethod method, Event.createRendererFor method])) := by
  constructor
  · intro h
    simp [createRender, h]
  · intro h hn
    simp [createRender, h, hn]

/-- Witness for C5: the no-op case and the swap case at concrete states. -/
theorem createRender_ordering_witness :
    createRender activeRtxState RndMethod.eRtxPipeline = (activeRtxState, []) ∧
    createRender activeRtxState RndMethod.eRayQuery =
      ({ activeRtxState with rndMethod := RndMethod.eRayQuery },
       [Event.deviceWaitIdle, Event.destroyRenderer RndMethod.eRtxPipeline,
        Event.setActiveMethod RndMethod.eRayQuery,
        Event.createRendererFor RndMethod.eRayQuery]) :=
  ⟨(createRender_ordering activeRtxState RndMethod.eRtxPipeline).1 (by decide),
   (createRender_ordering activeRtxState RndMethod.eRayQuery).2 (by decide) (by decide)⟩

/-! ## C6: GUI-driven reset OR-reduction -/

/-- Claim C6 counterexample: a GUI pass in which only a tonemapper control
changed performs NO `resetFrame` — `guiTonemapper` always returns false
(gui.cpp:375), so its changes never reach the OR-reduction. -/
theorem c6Counterexample :
    guiSettingsPass exampleStart false false true false = (exampleStart, []) ∧
    (guiSettingsPass exampleStart false false true false).1.frame = 5 := by
  decide

/-- Claim C6 (amended): in every GUI pass the changed flags of the camera,
ray-tracing and environment sections are combined by a single OR-reduction
evaluated once after the pass, and `resetFrame` is invoked exactly once after
the pass iff any of those three reported a change; the tonemapper section
always reports unchanged (its edits take effect without a restart), so a
tonemapper-only change triggers no reset. -/
theorem guiSettingsPass_or_reduction (s : SimState) (camC rtC tmC envC : Bool) :
    guiSettingsPass s camC rtC tmC envC =
      (if camC || rtC || envC then (resetFrame s, [Event.resetFrameEv]) else (s, [])) := by
  cases camC <;> cases rtC <;> cases tmC <;> cases envC <;>
    simp [guiSettingsPass, guiCamera, guiRayTracing, guiTonemapper, guiEnvironment]

/-! ## C7: extension dispatch -/

/-- Claim C7 counterexample: loading `notes.txt` (an unsupported extension)
from a state with `frame = 5` is NOT free of state change: the completion
still resets the frame counter to -1. -/
theorem c7Counterexample :
    extensionOf "notes.txt" ≠ ".gltf" ∧ extensionOf "notes.txt" ≠ ".glb" ∧
    extensionOf "notes.txt" ≠ ".hdr" ∧
    exampleStart.frame = 5 ∧
    (loadAssets exampleStart "notes.txt" 0).1.frame = -1 := by
  decide

/-- Claim C7 (amended): a path ending in `.gltf`/`.glb` takes the scene load
path and not the HDR path; a path ending in `.hdr` takes the HDR path only;
any other extension takes neither path, and the call returns with `m_busy`
back to false and the frame counter reset to -1, with no other state
change. -/
theorem loadAssets_extension_dispatch (s : SimState) (f : String) (q : ℚ) :
    ((extensionOf f = ".gltf" ∨ extensionOf f = ".glb") →
      hasSceneLoad (loadAssets s f q).2 = true ∧ hasHdrLoad (loadAssets s f q).2 = false) ∧
    (extensionOf f = ".hdr" →
      hasHdrLoad (loadAssets s f q).2 = true ∧ hasSceneLoad (loadAssets s f q).2 = false) ∧
    (extensionOf f ≠ ".gltf" → extensionOf f ≠ ".glb" → extensionOf f ≠ ".hdr" →
      hasSceneLoad (loadAssets s f q).2 = false ∧ hasHdrLoad (loadAssets s f q).2 = false ∧
      (loadAssets s f q).1 = { s with frame := -1, busy := false }) := by
  refine ⟨?_, ?_, ?_⟩
  · intro h
    have hh : extensionOf f ≠ ".hdr" := by
      rcases h with h | h <;> rw [h] <;> decide
    simp [loadAssets, h, hh, loadScene, resetFrame, hasSceneLoad, hasHdrLoad]
  · intro h
    have hg : ¬(extensionOf f = ".gltf" ∨ extensionOf f = ".glb") := by
      rw [h]; decide
    simp [loadAssets, h, hg, loadEnvironmentHdr, hasSceneLoad, hasHdrLoad]
  · intro h1 h2 h3
    have hg : ¬(extensionOf f = ".gltf" ∨ extensionOf f = ".glb") := by
      intro hc
      rcases hc with hc | hc
      · exact h1 hc
      · exact h2 hc
    simp [loadAssets, hg, h3, hasSceneLoad, hasHdrLoad]

/-- Witness for C7's amended theorem at the three concrete file names. -/
theorem loadAssets_extension_dispatch_witness :
    (hasSceneLoad (loadAssets initialSimState "a.glb" 0).2 = true ∧
     hasHdrLoad (loadAssets initialSimState "a.glb" 0).2 = false) ∧
    (hasHdrLoad (loadAssets initialSimState "b.hdr" 0).2 = true ∧
     hasSceneLoad (loadAssets initialSimState "b.hdr" 0).2 = false) ∧
    (hasSceneLoad (loadAssets initialSimState "c.txt" 0).2 = false ∧
     hasHdrLoad (loadAssets initialSimState "c.txt" 0).2 = false ∧
     (loadAssets initialSimState "c.txt" 0).1 =
       { initialSimState with frame := -1, busy := false }) :=
  ⟨(loadAssets_extension_dispatch initialSimState "a.glb" 0).1 (Or.inr (by decide)),
   (loadAssets_extension_dispatch initialSimState "b.hdr" 0).2.1 (by decide),
   (loadAssets_extension_dispatch initialSimState "c.txt" 0).2.2
     (by decide) (by decide) (by decide)⟩

/-! ## C8: load-session completion postcondition -/

/-- Claim C8: every load session started by `loadAssets`, regardless of asset
kind (and of load success, which the code does not distinguish), ends with
`m_rtxState.frame = -1` and `m_busy = false`, the reset happening immediately
before the busy flag is cleared. -/
theorem loadAssets_completion (s : SimState) (f : String) (q : ℚ) :
    (loadAssets s f q).1.frame = -1 ∧ (loadAssets s f q).1.busy = false ∧
    endsWithResetThenClear (loadAssets s f q).2 = true := by
  by_cases h1 : extensionOf f = ".gltf" ∨ extensionOf f = ".glb" <;>
    by_cases h2 : extensionOf f = ".hdr" <;>
      simp [loadAssets, h1, h2, loadScene, loadEnvironmentHdr, resetFrame,
            endsWithResetThenClear, List.reverse_append]

/-! ## C9: busy rejection on file drop -/

/-- Claim C9: while `m_busy = true`, `onFileDrop` returns immediately with no
`loadAssets` invocation and the state unchanged, whereas the File-menu path
invokes `loadAssets` without this guard. -/
theorem onFileDrop_busy_guard (s : SimState) (f : String) (q : ℚ) (h : s.busy = true) :
    onFileDrop s f q = (s, []) ∧
    (menuOpenAsset s f q).2.head? = some (Event.loadAssetsCall f) := by
  constructor
  · simp [onFileDrop, h]
  · rfl

/-- Witness for C9 at a concrete busy state. -/
theorem onFileDrop_busy_guard_witness :
    busyState.busy = true ∧
    (onFileDrop busyState "scene.glb" 0 = (busyState, []) ∧
     (menuOpenAsset busyState "scene.glb" 0).2.head? =
       some (Event.loadAssetsCall "scene.glb")) :=
  ⟨rfl, onFileDrop_busy_guard busyState "scene.glb" 0 rfl⟩

/-! ## C10: HDR load sets the firefly clamp threshold -/

/-- Claim C10: every `loadEnvironmentHdr` call, after loading the
environment, sets `m_rtxState.fireflyClampThreshold` to 4 times the loaded
environment's importance-sampling integral (`m_skydome.getIntegral() * 4`),
mutating the per-frame push-constant state beyond the environment
descriptors. -/
theorem loadEnvironmentHdr_firefly (s : SimState) (f : String) (q : ℚ) :
    (loadEnvironmentHdr s f q).1.fireflyClampThreshold =
      (loadEnvironmentHdr s f q).1.envIntegral * 4 ∧
    (loadEnvironmentHdr s f q).1.envIntegral = q ∧
    (loadEnvironmentHdr s f q).1.hdrLoaded = some f :=
  ⟨rfl, rfl, rfl⟩

end RtSim
